import Mathlib

set_option linter.unusedVariables false

/-!
Verification of the instanced-rendering data pipeline of
`Tutorial05_TextureArray.cpp` (texture-array builder, instance layout
generator, orbit camera controller, frame renderer).

Numeric model: the float arithmetic of the source is embedded as exact
rational arithmetic (the spec reads all numeric statements "modulo
floating-point accumulation").  The external float math routines
`sinf`, `cosf`, `sqrtf` are abstracted as an oracle of functions
`ℚ → ℚ`; no claim depends on their numeric values.
-/

namespace Tutorial05

/-- The engine constant `PI_F`: the 32-bit float closest to π
(0x40490FDB = 13176795 / 4194304). -/
def PI_F : ℚ := 13176795 / 4194304

/-- Abstraction of the C float math library: `sinf`, `cosf`, `sqrtf`
are opaque pure functions on (float-valued, hence rational) inputs. -/
structure MathOracle where
  sin : ℚ → ℚ
  cos : ℚ → ℚ
  sqrt : ℚ → ℚ

/-- A concrete oracle used to evaluate witnesses on closed inputs. -/
def trivOracle : MathOracle :=
  { sin := fun _ => 0, cos := fun _ => 0, sqrt := fun _ => 0 }

/-- The engine `float3` vector type. -/
structure Vec3 where
  x : ℚ
  y : ℚ
  z : ℚ
deriving DecidableEq

instance : Add Vec3 := ⟨fun a b => ⟨a.x + b.x, a.y + b.y, a.z + b.z⟩⟩

instance : Sub Vec3 := ⟨fun a b => ⟨a.x - b.x, a.y - b.y, a.z - b.z⟩⟩

/-- Scalar multiple of a `float3` (the engine `v * s`). -/
def Vec3.smul (c : ℚ) (v : Vec3) : Vec3 := ⟨c * v.x, c * v.y, c * v.z⟩

/-- The engine `dot(a, b)`. -/
def dot (a b : Vec3) : ℚ := a.x * b.x + a.y * b.y + a.z * b.z

/-- The engine `cross(a, b)`. -/
def cross (a b : Vec3) : Vec3 :=
  ⟨a.y * b.z - a.z * b.y, a.z * b.x - a.x * b.z, a.x * b.y - a.y * b.x⟩

/-- The engine `normalize(v) = v / length(v)` with `length = sqrtf (dot v v)`. -/
def normalize (o : MathOracle) (v : Vec3) : Vec3 :=
  Vec3.smul (1 / o.sqrt (dot v v)) v

@[simp] theorem Vec3.add_x (a b : Vec3) : (a + b).x = a.x + b.x := rfl

@[simp] theorem Vec3.add_y (a b : Vec3) : (a + b).y = a.y + b.y := rfl

@[simp] theorem Vec3.add_z (a b : Vec3) : (a + b).z = a.z + b.z := rfl

@[simp] theorem Vec3.sub_x (a b : Vec3) : (a - b).x = a.x - b.x := rfl

@[simp] theorem Vec3.sub_y (a b : Vec3) : (a - b).y = a.y - b.y := rfl

@[simp] theorem Vec3.sub_z (a b : Vec3) : (a - b).z = a.z - b.z := rfl

/-- The engine row-major `float4x4` (row-vector convention, `_11 .. _44`
written `m11 .. m44`). -/
structure Float4x4 where
  m11 : ℚ
  m12 : ℚ
  m13 : ℚ
  m14 : ℚ
  m21 : ℚ
  m22 : ℚ
  m23 : ℚ
  m24 : ℚ
  m31 : ℚ
  m32 : ℚ
  m33 : ℚ
  m34 : ℚ
  m41 : ℚ
  m42 : ℚ
  m43 : ℚ
  m44 : ℚ
deriving DecidableEq

/-- Standard matrix product `(A*B)_{ij} = Σ_k A_{ik} B_{kj}`, as the engine
float4x4 multiplication. -/
def Float4x4.mul (a b : Float4x4) : Float4x4 :=
  ⟨a.m11 * b.m11 + a.m12 * b.m21 + a.m13 * b.m31 + a.m14 * b.m41,
   a.m11 * b.m12 + a.m12 * b.m22 + a.m13 * b.m32 + a.m14 * b.m42,
   a.m11 * b.m13 + a.m12 * b.m23 + a.m13 * b.m33 + a.m14 * b.m43,
   a.m11 * b.m14 + a.m12 * b.m24 + a.m13 * b.m34 + a.m14 * b.m44,
   a.m21 * b.m11 + a.m22 * b.m21 + a.m23 * b.m31 + a.m24 * b.m41,
   a.m21 * b.m12 + a.m22 * b.m22 + a.m23 * b.m32 + a.m24 * b.m42,
   a.m21 * b.m13 + a.m22 * b.m23 + a.m23 * b.m33 + a.m24 * b.m43,
   a.m21 * b.m14 + a.m22 * b.m24 + a.m23 * b.m34 + a.m24 * b.m44,
   a.m31 * b.m11 + a.m32 * b.m21 + a.m33 * b.m31 + a.m34 * b.m41,
   a.m31 * b.m12 + a.m32 * b.m22 + a.m33 * b.m32 + a.m34 * b.m42,
   a.m31 * b.m13 + a.m32 * b.m23 + a.m33 * b.m33 + a.m34 * b.m43,
   a.m31 * b.m14 + a.m32 * b.m24 + a.m33 * b.m34 + a.m34 * b.m44,
   a.m41 * b.m11 + a.m42 * b.m21 + a.m43 * b.m31 + a.m44 * b.m41,
   a.m41 * b.m12 + a.m42 * b.m22 + a.m43 * b.m32 + a.m44 * b.m42,
   a.m41 * b.m13 + a.m42 * b.m23 + a.m43 * b.m33 + a.m44 * b.m43,
   a.m41 * b.m14 + a.m42 * b.m24 + a.m43 * b.m34 + a.m44 * b.m44⟩

instance : Mul Float4x4 := ⟨Float4x4.mul⟩

/-- The engine `float4x4::Identity()`. -/
def Float4x4.identity : Float4x4 :=
  ⟨1, 0, 0, 0, 0, 1, 0, 0, 0, 0, 1, 0, 0, 0, 0, 1⟩

/-- The engine `float4x4::Scale(sx, sy, sz)`. -/
def Float4x4.Scale (sx sy sz : ℚ) : Float4x4 :=
  ⟨sx, 0, 0, 0, 0, sy, 0, 0, 0, 0, sz, 0, 0, 0, 0, 1⟩

/-- The engine `float4x4::Translation(tx, ty, tz)` (row-vector convention:
the translation sits in the fourth row). -/
def Float4x4.Translation (tx ty tz : ℚ) : Float4x4 :=
  ⟨1, 0, 0, 0, 0, 1, 0, 0, 0, 0, 1, 0, tx, ty, tz, 1⟩

/-- The engine `float4x4::RotationY(angle)` with `sinf`/`cosf` taken from
the oracle. -/
def Float4x4.RotationY (o : MathOracle) (a : ℚ) : Float4x4 :=
  ⟨o.cos a, 0, -(o.sin a), 0,
   0, 1, 0, 0,
   o.sin a, 0, o.cos a, 0,
   0, 0, 0, 1⟩

/-! ### Texture Array Builder (`Tutorial05_TextureArray::LoadTextures`) -/

/-- The relevant fields of the engine `TextureDesc` (the remaining fields —
resource dimension, usage, bind flags — are engine enum tags set to fixed
constants and carry no verifiable content here). -/
structure TexDesc where
  width : ℕ
  height : ℕ
  mipLevels : ℕ
  arraySize : ℕ
  format : ℕ
deriving DecidableEq

/-- One loaded source image, as exposed by the external `ITextureLoader`:
a descriptor plus `GetSubresourceData(mip, arraySlice)`.  `σ` is the
abstract type of subresource data blocks. -/
structure TexLoader (σ : Type) where
  desc : TexDesc
  GetSubresourceData : ℕ → ℕ → σ

/-- The produced array texture: its descriptor, the flat initialization
data (the `SubresData` vector) and the subresource count passed in
`TextureData`. -/
structure TextureArrayData (σ : Type) where
  desc : TexDesc
  subres : List σ
  numSubres : ℕ
deriving DecidableEq

/-- Embedding of `Tutorial05_TextureArray::LoadTextures`: requires a
non-empty batch whose descriptors all equal the first one (the `VERIFY`
assertion), then builds `TexArrDesc` from `TexLoaders[0]` with
`ArraySize = NumTextures` and fills `SubresData` so that slot
`slice * MipLevels + mip` holds `TexLoaders[slice]->GetSubresourceData(mip, 0)`
(the two nested loops write each slot exactly once, in this layout). -/
def LoadTextures {σ : Type} (loaders : List (TexLoader σ)) :
    Option (TextureArrayData σ) :=
  match loaders.head? with
  | none => none
  | some l0 =>
    if ∀ l ∈ loaders, l.desc = l0.desc then
      let arrDesc : TexDesc := { l0.desc with arraySize := loaders.length }
      some { desc := arrDesc,
             subres := loaders.flatMap fun ld =>
               (List.range arrDesc.mipLevels).map fun mip =>
                 ld.GetSubresourceData mip 0,
             numSubres := arrDesc.mipLevels * arrDesc.arraySize }
    else none

/-! ### Instance Layout Generator
(`Tutorial05_TextureArray::PopulateInstanceBuffer`) -/

/-- The per-instance vertex-stream record. -/
structure InstanceData where
  Matrix : Float4x4
  TextureInd : ℚ
deriving DecidableEq

/-- Byte size of `InstanceData`: a 4×4 float matrix plus one float, four
bytes each, no padding. -/
def instanceDataSize : ℕ := 4 * 4 * 4 + 4

/-- A GPU command as recorded by the embedding of the render path. -/
inductive GpuCmd where
  | updateBuffer (dstOffset : ℕ) (dataSize : ℕ)
  | clearRenderTarget
  | clearDepth
  | writeConstants (cb : List Float4x4)
  | setVertexBuffers
  | setIndexBuffer
  | setPipelineState
  | commitShaderResources
  | drawIndexed (numIndices : ℕ) (numInstances : ℤ)
deriving DecidableEq

/-- Initial value of the process-wide `static float angle = (PI_F / 1.0)`. -/
def angleInitial : ℚ := PI_F / 1

/-- The 22 hand-authored instance records at a given rotation angle,
exactly the assignments `InstanceDataArray[0..21]` of the source:
`Scale(...) * Translation(...) * RotationY(angle)` plus a texture index. -/
def instanceRecords (o : MathOracle) (a : ℚ) : List InstanceData :=
  [⟨Float4x4.Scale 5 0.1 0.01 * Float4x4.Translation 0 0 0 * Float4x4.RotationY o a, 3⟩,
   ⟨Float4x4.Scale 0.01 0.1 5 * Float4x4.Translation 0 0 0 * Float4x4.RotationY o a, 3⟩,
   ⟨Float4x4.Scale 0.1 1 0.01 * Float4x4.Translation (-5) (-1) 0 * Float4x4.RotationY o a, 3⟩,
   ⟨Float4x4.Scale 0.1 1 0.01 * Float4x4.Translation 5 (-1) 0 * Float4x4.RotationY o a, 3⟩,
   ⟨Float4x4.Scale 0.1 1 0.01 * Float4x4.Translation 0 1 0 * Float4x4.RotationY o a, 3⟩,
   ⟨Float4x4.Scale 0.05 1 0.01 * Float4x4.Translation 0 (-1) (-5) * Float4x4.RotationY o a, 3⟩,
   ⟨Float4x4.Scale 0.05 1 0.01 * Float4x4.Translation 0 (-1) 5 * Float4x4.RotationY o a, 3⟩,
   ⟨Float4x4.Scale 1 1 1 * Float4x4.Translation (-5) (-2) 0 * Float4x4.RotationY o a, 0⟩,
   ⟨Float4x4.Scale 1 1 1 * Float4x4.Translation 5 (-2) 0 * Float4x4.RotationY o a, 2⟩,
   ⟨Float4x4.Scale 1 1 1 * Float4x4.Translation 0 (-2) (-5) * Float4x4.RotationY o a, 1⟩,
   ⟨Float4x4.Scale 1 1 1 * Float4x4.Translation 0 (-2) 5 * Float4x4.RotationY o a, 0⟩,
   ⟨Float4x4.Scale 3 0.05 0.01 * Float4x4.Translation 0 (-5) 0 * Float4x4.RotationY o a, 3⟩,
   ⟨Float4x4.Scale 0.01 0.05 3 * Float4x4.Translation 0 (-5) 0 * Float4x4.RotationY o a, 3⟩,
   ⟨Float4x4.Scale 0.05 4 0.01 * Float4x4.Translation 0 (-1) 0 * Float4x4.RotationY o a, 3⟩,
   ⟨Float4x4.Scale 0.05 1 0.01 * Float4x4.Translation (-3) (-6) 0 * Float4x4.RotationY o a, 3⟩,
   ⟨Float4x4.Scale 0.05 1 0.01 * Float4x4.Translation 3 (-6) 0 * Float4x4.RotationY o a, 3⟩,
   ⟨Float4x4.Scale 0.05 1 0.01 * Float4x4.Translation 0 (-6) 3 * Float4x4.RotationY o a, 3⟩,
   ⟨Float4x4.Scale 0.05 1 0.01 * Float4x4.Translation 0 (-6) (-3) * Float4x4.RotationY o a, 3⟩,
   ⟨Float4x4.Scale 1 1 1 * Float4x4.Translation (-3) (-7) 0 * Float4x4.RotationY o a, 1⟩,
   ⟨Float4x4.Scale 1 1 1 * Float4x4.Translation 3 (-7) 0 * Float4x4.RotationY o a, 0⟩,
   ⟨Float4x4.Scale 1 1 1 * Float4x4.Translation 0 (-7) 3 * Float4x4.RotationY o a, 2⟩,
   ⟨Float4x4.Scale 1 1 1 * Float4x4.Translation 0 (-7) (-3) * Float4x4.RotationY o a, 1⟩]

/-- The fixed per-record (scale factors, translation factors, texture index)
table: the hand-authored part of the scene, independent of the rotation
angle. -/
def instanceLayoutTable : List (Vec3 × Vec3 × ℚ) :=
  [(⟨5, 0.1, 0.01⟩, ⟨0, 0, 0⟩, 3),
   (⟨0.01, 0.1, 5⟩, ⟨0, 0, 0⟩, 3),
   (⟨0.1, 1, 0.01⟩, ⟨-5, -1, 0⟩, 3),
   (⟨0.1, 1, 0.01⟩, ⟨5, -1, 0⟩, 3),
   (⟨0.1, 1, 0.01⟩, ⟨0, 1, 0⟩, 3),
   (⟨0.05, 1, 0.01⟩, ⟨0, -1, -5⟩, 3),
   (⟨0.05, 1, 0.01⟩, ⟨0, -1, 5⟩, 3),
   (⟨1, 1, 1⟩, ⟨-5, -2, 0⟩, 0),
   (⟨1, 1, 1⟩, ⟨5, -2, 0⟩, 2),
   (⟨1, 1, 1⟩, ⟨0, -2, -5⟩, 1),
   (⟨1, 1, 1⟩, ⟨0, -2, 5⟩, 0),
   (⟨3, 0.05, 0.01⟩, ⟨0, -5, 0⟩, 3),
   (⟨0.01, 0.05, 3⟩, ⟨0, -5, 0⟩, 3),
   (⟨0.05, 4, 0.01⟩, ⟨0, -1, 0⟩, 3),
   (⟨0.05, 1, 0.01⟩, ⟨-3, -6, 0⟩, 3),
   (⟨0.05, 1, 0.01⟩, ⟨3, -6, 0⟩, 3),
   (⟨0.05, 1, 0.01⟩, ⟨0, -6, 3⟩, 3),
   (⟨0.05, 1, 0.01⟩, ⟨0, -6, -3⟩, 3),
   (⟨1, 1, 1⟩, ⟨-3, -7, 0⟩, 1),
   (⟨1, 1, 1⟩, ⟨3, -7, 0⟩, 0),
   (⟨1, 1, 1⟩, ⟨0, -7, 3⟩, 2),
   (⟨1, 1, 1⟩, ⟨0, -7, -3⟩, 1)]

/-- Embedding of `Tutorial05_TextureArray::PopulateInstanceBuffer`: it
advances the process-wide `angle` by `0.003`, builds the 22 records at the
advanced angle, and issues `UpdateBuffer(m_InstanceBuffer, 0, DataSize, ...)`
with `DataSize = sizeof(InstanceData) * InstanceDataArray.size()`.
Returns (new angle, records, buffer-update command). -/
def PopulateInstanceBuffer (o : MathOracle) (angle : ℚ) :
    ℚ × List InstanceData × GpuCmd :=
  let a := angle + 0.003
  let arr := instanceRecords o a
  (a, arr, GpuCmd.updateBuffer 0 (instanceDataSize * arr.length))

/-! ### Frame Renderer (`Tutorial05_TextureArray::Render`) -/

/-- The per-frame uniform constants (`m_ViewProjMatrix`, `m_RotationMatrix`). -/
structure FrameConstants where
  viewProjMatrix : Float4x4
  rotationMatrix : Float4x4
deriving DecidableEq

/-- Embedding of `Tutorial05_TextureArray::Render`: repopulates the
instance buffer (mutating the shared angle), clears targets, writes the
two constant matrices through the scoped map, binds buffers and pipeline,
and issues the single indexed-instanced draw with 36 indices and
`m_GridSize³` instances.  Returns (new angle, recorded command list). -/
def Render (o : MathOracle) (angle : ℚ) (gridSize : ℤ) (c : FrameConstants) :
    ℚ × List GpuCmd :=
  let pop := PopulateInstanceBuffer o angle
  (pop.1,
   [pop.2.2,
    GpuCmd.clearRenderTarget,
    GpuCmd.clearDepth,
    GpuCmd.writeConstants [c.viewProjMatrix, c.rotationMatrix],
    GpuCmd.setVertexBuffers,
    GpuCmd.setIndexBuffer,
    GpuCmd.setPipelineState,
    GpuCmd.commitShaderResources,
    GpuCmd.drawIndexed 36 (gridSize * gridSize * gridSize)])

/-- Tests whether a recorded command is a draw call. -/
def GpuCmd.isDrawCall : GpuCmd → Bool
  | GpuCmd.drawIndexed _ _ => true
  | _ => false

/-! ### Orbit Camera Controller (`Tutorial05_TextureArray::Update`) -/

/-- The camera state held in the `static` locals of `Update`:
`yaw`, `pitch`, `distance`, `target`. -/
structure CameraState where
  yaw : ℚ
  pitch : ℚ
  distance : ℚ
  target : Vec3
deriving DecidableEq

/-- Initial values of the `static` camera locals. -/
def initCamera : CameraState :=
  { yaw := 0, pitch := 0, distance := 20, target := ⟨0, -4, 0⟩ }

/-- The twelve named view-preset buttons, in source order. -/
inductive Preset where
  | frontRight
  | topRight
  | frontLeft
  | right
  | up
  | front
  | left
  | down
  | back
  | rightBottom
  | downLeft
  | leftBottom
deriving DecidableEq

/-- The input surface of one `Update` call: drag state and delta, wheel
delta, the four pan keys, elapsed time, and at most one preset button
activation. -/
structure FrameInput where
  dragging : Bool
  dragDX : ℚ
  dragDY : ℚ
  wheel : ℚ
  keyUp : Bool
  keyDown : Bool
  keyRight : Bool
  keyLeft : Bool
  elapsed : ℚ
  preset : Option Preset
deriving DecidableEq

/-- An input with nothing active. -/
def noInput : FrameInput :=
  { dragging := false, dragDX := 0, dragDY := 0, wheel := 0,
    keyUp := false, keyDown := false, keyRight := false, keyLeft := false,
    elapsed := 0, preset := none }

/-- An input carrying only a wheel delta. -/
def scrollInput (w : ℚ) : FrameInput := { noInput with wheel := w }

/-- An input carrying only a held-button drag delta. -/
def dragInput (dx dy : ℚ) : FrameInput :=
  { noInput with dragging := true, dragDX := dx, dragDY := dy }

/-- An input carrying only a preset button activation. -/
def presetInput (p : Preset) : FrameInput := { noInput with preset := some p }

/-- The drag step: while the left button is held, `yaw += dragDelta.x *
sensitivity` with `sensitivity = 0.005`; the vertical delta is read but
unused. -/
def applyDrag (dragging : Bool) (dx _dy : ℚ) (s : CameraState) : CameraState :=
  if dragging then { s with yaw := s.yaw + dx * 0.005 } else s

/-- The pitch clamp: `pitchLimit = 1.57f * 0.99f`, applied every update. -/
def clampPitchStep (s : CameraState) : CameraState :=
  let pitchLimit : ℚ := 1.57 * 0.99
  let p1 := if s.pitch > pitchLimit then pitchLimit else s.pitch
  let p2 := if p1 < -pitchLimit then -pitchLimit else p1
  { s with pitch := p2 }

/-- The scroll step: when `fabs(wheel) > 0`, `distance -= wheel * 2` and the
two sequential range checks pin it into `[1, 100]`. -/
def applyScroll (wheel : ℚ) (s : CameraState) : CameraState :=
  if 0 < |wheel| then
    let d1 := s.distance - wheel * 2
    let d2 := if d1 < 1 then 1 else d1
    let d3 := if d2 > 100 then 100 else d2
    { s with distance := d3 }
  else s

/-- The camera offset of the source:
`distance * (cos(pitch)sin(yaw), sin(pitch), cos(pitch)cos(yaw))`. -/
def cameraOffset (o : MathOracle) (s : CameraState) : Vec3 :=
  ⟨s.distance * o.cos s.pitch * o.sin s.yaw,
   s.distance * o.sin s.pitch,
   s.distance * o.cos s.pitch * o.cos s.yaw⟩

/-- The forward basis vector: `normalize(target - cameraPos)` with
`cameraPos = target + offset`. -/
def cameraForward (o : MathOracle) (s : CameraState) : Vec3 :=
  normalize o (s.target - (s.target + cameraOffset o s))

/-- The right basis vector: `normalize(cross(float3(0,1,0), forward))`. -/
def cameraRight (o : MathOracle) (s : CameraState) : Vec3 :=
  normalize o (cross ⟨0, 1, 0⟩ (cameraForward o s))

/-- The up basis vector: `cross(forward, right)`. -/
def cameraUpVec (o : MathOracle) (s : CameraState) : Vec3 :=
  cross (cameraForward o s) (cameraRight o s)

/-- The target after the key-held pan step: `target ± camUp * panSpeed` and
`target ± right * panSpeed` with `panSpeed = 5 * ElapsedTime`, in the
source order (up, down, right, left).  The basis vectors are the ones the
source computed just above from the same state. -/
def panTarget (o : MathOracle) (inp : FrameInput) (s : CameraState) : Vec3 :=
  let right := cameraRight o s
  let camUp := cameraUpVec o s
  let panSpeed := 5 * inp.elapsed
  let t1 := if inp.keyUp then s.target + Vec3.smul panSpeed camUp else s.target
  let t2 := if inp.keyDown then t1 - Vec3.smul panSpeed camUp else t1
  let t3 := if inp.keyRight then t2 + Vec3.smul panSpeed right else t2
  if inp.keyLeft then t3 - Vec3.smul panSpeed right else t3

/-- The key-held pan step (only `target` moves). -/
def applyPan (o : MathOracle) (inp : FrameInput) (s : CameraState) :
    CameraState :=
  { s with target := panTarget o inp s }

/-- The preset buttons: each directly assigns `yaw` and `pitch` to fixed
constants, exactly as the source button handlers do. -/
def applyPreset (p : Preset) (s : CameraState) : CameraState :=
  match p with
  | Preset.frontRight => { s with yaw := PI_F / 4, pitch := PI_F / 4 }
  | Preset.topRight => { s with yaw := 0, pitch := PI_F / 4 }
  | Preset.frontLeft => { s with yaw := -(PI_F / 4), pitch := PI_F / 4 }
  | Preset.right => { s with yaw := PI_F / 2, pitch := 0 }
  | Preset.up => { s with yaw := 0, pitch := PI_F / 2 }
  | Preset.front => { s with yaw := 0, pitch := 0 }
  | Preset.left => { s with yaw := -(PI_F / 2), pitch := 0 }
  | Preset.down => { s with yaw := 0, pitch := -(PI_F / 2) }
  | Preset.back => { s with yaw := PI_F, pitch := 0 }
  | Preset.rightBottom => { s with yaw := PI_F / 4, pitch := -(PI_F / 4) }
  | Preset.downLeft => { s with yaw := 0, pitch := -(PI_F / 4) }
  | Preset.leftBottom => { s with yaw := -(PI_F / 4), pitch := -(PI_F / 4) }

/-- The camera state reached just before the preset button handlers run:
drag, pitch clamp, scroll, then key-held pan, in source order. -/
def prePresetCamera (o : MathOracle) (inp : FrameInput) (s : CameraState) :
    CameraState :=
  applyPan o inp
    (applyScroll inp.wheel (clampPitchStep (applyDrag inp.dragging inp.dragDX inp.dragDY s)))

/-- Embedding of `Tutorial05_TextureArray::Update`: input processing in
source order (drag, pitch clamp, scroll, pan), the view matrix built from
the basis vectors and the post-pan camera position, the uploaded matrices
`m_ViewProjMatrix = View * SrfPreTransform * Proj` (with
`Proj = GetAdjustedProjectionMatrix(PI_F / 4, 0.1, 100)` abstracted as
`getProj`) and `m_RotationMatrix = Identity()`, and finally the preset
button handlers.  Returns (new camera state, uploaded frame constants). -/
def Update (o : MathOracle) (srf : Float4x4) (getProj : ℚ → ℚ → ℚ → Float4x4)
    (s : CameraState) (inp : FrameInput) : CameraState × FrameConstants :=
  let s3 := applyScroll inp.wheel (clampPitchStep (applyDrag inp.dragging inp.dragDX inp.dragDY s))
  let offset := cameraOffset o s3
  let forward := cameraForward o s3
  let right := cameraRight o s3
  let camUp := cameraUpVec o s3
  let s4 := applyPan o inp s3
  let cameraPos := s4.target + offset
  let view : Float4x4 :=
    ⟨right.x, camUp.x, forward.x, 0,
     right.y, camUp.y, forward.y, 0,
     right.z, camUp.z, forward.z, 0,
     -dot right cameraPos, -dot camUp cameraPos, -dot forward cameraPos, 1⟩
  let s5 := match inp.preset with
    | none => s4
    | some p => applyPreset p s4
  (s5,
   { viewProjMatrix := view * srf * getProj (PI_F / 4) 0.1 100,
     rotationMatrix := Float4x4.identity })

/-- A stub projection supplier used to evaluate witnesses. -/
def projStub : ℚ → ℚ → ℚ → Float4x4 := fun _ _ _ => Float4x4.identity

/-- Folding a sequence of inputs through the camera-state part of `Update`. -/
def runUpdates (o : MathOracle) (srf : Float4x4)
    (getProj : ℚ → ℚ → ℚ → Float4x4) (s : CameraState)
    (inputs : List FrameInput) : CameraState :=
  inputs.foldl (fun st inp => (Update o srf getProj st inp).1) s

/-- The view matrix exactly as the spec words it: offset from
yaw/pitch/distance, `cameraPos = target + offset`,
`forward = normalize(target - cameraPos)`,
`right = normalize(cross(worldUp, forward))`, `camUp = cross(forward, right)`,
columns formed from (right, camUp, forward) with fourth-row translation
entries `-dot(basisVector, cameraPos)`. -/
def specViewMatrix (o : MathOracle) (s : CameraState) : Float4x4 :=
  let offset : Vec3 :=
    ⟨s.distance * o.cos s.pitch * o.sin s.yaw,
     s.distance * o.sin s.pitch,
     s.distance * o.cos s.pitch * o.cos s.yaw⟩
  let cameraPos := s.target + offset
  let forward := normalize o (s.target - cameraPos)
  let right := normalize o (cross ⟨0, 1, 0⟩ forward)
  let camUp := cross forward right
  ⟨right.x, camUp.x, forward.x, 0,
   right.y, camUp.y, forward.y, 0,
   right.z, camUp.z, forward.z, 0,
   -dot right cameraPos, -dot camUp cameraPos, -dot forward cameraPos, 1⟩

/-! ### Auxiliary lemmas -/

attribute [ext] Vec3 Float4x4

/-- Componentwise fact used below: subtracting `t + v` from `t` yields the
negated `v`, whatever `t` is. -/
theorem Vec3.sub_add_self (t v : Vec3) : t - (t + v) = ⟨-v.x, -v.y, -v.z⟩ := by
  ext <;> simp

theorem applyDrag_pitch (b : Bool) (dx dy : ℚ) (s : CameraState) :
    (applyDrag b dx dy s).pitch = s.pitch := by
  unfold applyDrag
  split <;> rfl

theorem applyDrag_distance (b : Bool) (dx dy : ℚ) (s : CameraState) :
    (applyDrag b dx dy s).distance = s.distance := by
  unfold applyDrag
  split <;> rfl

theorem applyScroll_pitch (w : ℚ) (s : CameraState) :
    (applyScroll w s).pitch = s.pitch := by
  unfold applyScroll
  split <;> rfl

theorem clampPitchStep_distance (s : CameraState) :
    (clampPitchStep s).distance = s.distance := rfl

theorem applyPan_pitch (o : MathOracle) (inp : FrameInput) (s : CameraState) :
    (applyPan o inp s).pitch = s.pitch := rfl

theorem applyPan_distance (o : MathOracle) (inp : FrameInput) (s : CameraState) :
    (applyPan o inp s).distance = s.distance := rfl

theorem applyPreset_distance (p : Preset) (s : CameraState) :
    (applyPreset p s).distance = s.distance := by
  cases p <;> rfl

/-- The clamp step always leaves the pitch inside `[-1.57*0.99, 1.57*0.99]`,
whatever it was before. -/
theorem clampPitchStep_bounds (s : CameraState) :
    -(1.57 * 0.99) ≤ (clampPitchStep s).pitch ∧
      (clampPitchStep s).pitch ≤ 1.57 * 0.99 := by
  have hL : (0 : ℚ) < 1.57 * 0.99 := by norm_num
  unfold clampPitchStep
  dsimp only
  split_ifs <;> constructor <;> linarith

/-- The scroll step, when the wheel moved, clamps `distance - w * 2` into
`[1, 100]`. -/
theorem applyScroll_distance_eq (w : ℚ) (s : CameraState) (hw : 0 < |w|) :
    (applyScroll w s).distance = min 100 (max 1 (s.distance - w * 2)) := by
  unfold applyScroll
  rw [if_pos hw]
  dsimp only
  rw [max_def, min_def]
  split_ifs <;> linarith

/-- The scroll step keeps the distance inside `[1, 100]` whenever it was
there before. -/
theorem applyScroll_distance_bounds (w : ℚ) (s : CameraState)
    (h1 : 1 ≤ s.distance) (h2 : s.distance ≤ 100) :
    1 ≤ (applyScroll w s).distance ∧ (applyScroll w s).distance ≤ 100 := by
  by_cases hw : 0 < |w|
  · rw [applyScroll_distance_eq w s hw]
    exact ⟨le_min (by norm_num) (le_max_left _ _), min_le_left _ _⟩
  · have h : applyScroll w s = s := by
      unfold applyScroll
      rw [if_neg hw]
    rw [h]
    exact ⟨h1, h2⟩

/-- The first component of `Update` is the pre-preset camera, then the
preset handlers. -/
theorem Update_fst (o : MathOracle) (srf : Float4x4)
    (getProj : ℚ → ℚ → ℚ → Float4x4) (s : CameraState) (inp : FrameInput) :
    (Update o srf getProj s inp).1 =
      (match inp.preset with
       | none => prePresetCamera o inp s
       | some p => applyPreset p (prePresetCamera o inp s)) := rfl

theorem prePresetCamera_pitch (o : MathOracle) (inp : FrameInput)
    (s : CameraState) :
    (prePresetCamera o inp s).pitch =
      (clampPitchStep (applyDrag inp.dragging inp.dragDX inp.dragDY s)).pitch := by
  unfold prePresetCamera
  rw [applyPan_pitch, applyScroll_pitch]

theorem prePresetCamera_distance (o : MathOracle) (inp : FrameInput)
    (s : CameraState) :
    (prePresetCamera o inp s).distance =
      (applyScroll inp.wheel
        (clampPitchStep (applyDrag inp.dragging inp.dragDX inp.dragDY s))).distance := by
  unfold prePresetCamera
  rw [applyPan_distance]

/-- The clamp bound of the source, `1.57 * 0.99`, sits below `PI_F / 2`. -/
theorem pitchLimit_le_half_pi : (1.57 * 0.99 : ℚ) ≤ PI_F / 2 := by
  norm_num [PI_F]

/-- Every preset button assigns a pitch inside `[-PI_F/2, PI_F/2]` and keeps
the distance. -/
theorem applyPreset_pitch_bounds (p : Preset) (s : CameraState) :
    -(PI_F / 2) ≤ (applyPreset p s).pitch ∧ (applyPreset p s).pitch ≤ PI_F / 2 := by
  cases p <;> constructor <;> norm_num [applyPreset, PI_F]

/-- One `Update` call leaves the pitch in `[-PI_F/2, PI_F/2]`
unconditionally, and keeps the distance in `[1, 100]` when it started
there. -/
theorem Update_state_bounds (o : MathOracle) (srf : Float4x4)
    (getProj : ℚ → ℚ → ℚ → Float4x4) (s : CameraState) (inp : FrameInput)
    (h1 : 1 ≤ s.distance) (h2 : s.distance ≤ 100) :
    (-(PI_F / 2) ≤ (Update o srf getProj s inp).1.pitch ∧
       (Update o srf getProj s inp).1.pitch ≤ PI_F / 2) ∧
    (1 ≤ (Update o srf getProj s inp).1.distance ∧
       (Update o srf getProj s inp).1.distance ≤ 100) := by
  rw [Update_fst]
  have hpre1 := clampPitchStep_bounds (applyDrag inp.dragging inp.dragDX inp.dragDY s)
  have hpreD : 1 ≤ (prePresetCamera o inp s).distance ∧
      (prePresetCamera o inp s).distance ≤ 100 := by
    rw [prePresetCamera_distance]
    apply applyScroll_distance_bounds
    · rw [clampPitchStep_distance, applyDrag_distance]
      exact h1
    · rw [clampPitchStep_distance, applyDrag_distance]
      exact h2
  have hlim := pitchLimit_le_half_pi
  cases hp : inp.preset with
  | none =>
    refine ⟨⟨?_, ?_⟩, hpreD⟩ <;> rw [prePresetCamera_pitch] <;> linarith [hpre1.1, hpre1.2]
  | some p =>
    refine ⟨applyPreset_pitch_bounds p _, ?_⟩
    rw [applyPreset_distance]
    exact hpreD

/-- The distance at the end of `Update` is the pre-preset distance: neither
the pan nor any preset button touches it. -/
theorem Update_fst_distance (o : MathOracle) (srf : Float4x4)
    (getProj : ℚ → ℚ → ℚ → Float4x4) (s : CameraState) (inp : FrameInput) :
    (Update o srf getProj s inp).1.distance = (prePresetCamera o inp s).distance := by
  rw [Update_fst]
  cases hp : inp.preset with
  | none => rfl
  | some p => exact applyPreset_distance p _

/-- Invariant propagation through a whole input sequence. -/
theorem runUpdates_bounds (o : MathOracle) (srf : Float4x4)
    (getProj : ℚ → ℚ → ℚ → Float4x4) (inputs : List FrameInput) :
    ∀ s : CameraState, 1 ≤ s.distance → s.distance ≤ 100 →
      -(PI_F / 2) ≤ s.pitch → s.pitch ≤ PI_F / 2 →
      (-(PI_F / 2) ≤ (runUpdates o srf getProj s inputs).pitch ∧
         (runUpdates o srf getProj s inputs).pitch ≤ PI_F / 2) ∧
      1 ≤ (runUpdates o srf getProj s inputs).distance ∧
      (runUpdates o srf getProj s inputs).distance ≤ 100 := by
  induction inputs with
  | nil =>
    intro s h1 h2 h3 h4
    exact ⟨⟨h3, h4⟩, h1, h2⟩
  | cons inp tl ih =>
    intro s h1 h2 h3 h4
    have hstep := Update_state_bounds o srf getProj s inp h1 h2
    have hrw : runUpdates o srf getProj s (inp :: tl) =
        runUpdates o srf getProj (Update o srf getProj s inp).1 tl := rfl
    rw [hrw]
    exact ih _ hstep.2.1 hstep.2.2 hstep.1.1 hstep.1.2

/-- Appending one element before indexing a uniform-width flatMap: the
length of each produced block. -/
theorem flatMap_uniform_length {α β : Type} (f : α → List β) (m : ℕ)
    (hf : ∀ x, (f x).length = m) (l : List α) :
    (l.flatMap f).length = l.length * m := by
  induction l with
  | nil => simp
  | cons x tl ih =>
    simp only [List.flatMap_cons, List.length_append, ih, hf, List.length_cons]
    ring

/-- Indexing a flatMap whose blocks all have length `m`: position
`i * m + j` lands in block `i` at offset `j`. -/
theorem flatMap_uniform_getElem {α β : Type} (f : α → List β) (m : ℕ)
    (hf : ∀ x, (f x).length = m) :
    ∀ (l : List α) (i j : ℕ) (hi : i < l.length), j < m →
      (l.flatMap f)[i * m + j]? = (f (l.get ⟨i, hi⟩))[j]? := by
  intro l
  induction l with
  | nil =>
    intro i j hi
    simp at hi
  | cons x tl ih =>
    intro i j hi hj
    cases i with
    | zero =>
      simp only [List.flatMap_cons, Nat.zero_mul, Nat.zero_add]
      rw [List.getElem?_append, if_pos (by rw [hf]; omega)]
      rfl
    | succ n =>
      simp only [List.flatMap_cons]
      rw [List.getElem?_append, if_neg (by rw [hf]; push_neg; nlinarith)]
      rw [hf]
      have he : (n + 1) * m + j - m = n * m + j := by
        have hnm : (n + 1) * m = n * m + m := by ring
        omega
      rw [he]
      exact ih n j (by simpa using hi) hj

/-- The spec view matrix after a target move: the basis vectors do not
depend on the target (forward is `normalize(-offset)` whatever the target
is), while the translation row dots against the moved camera position. -/
theorem specView_target_shift (o : MathOracle) (s : CameraState) (t : Vec3) :
    specViewMatrix o { s with target := t } =
      ⟨(cameraRight o s).x, (cameraUpVec o s).x, (cameraForward o s).x, 0,
       (cameraRight o s).y, (cameraUpVec o s).y, (cameraForward o s).y, 0,
       (cameraRight o s).z, (cameraUpVec o s).z, (cameraForward o s).z, 0,
       -dot (cameraRight o s) (t + cameraOffset o s),
       -dot (cameraUpVec o s) (t + cameraOffset o s),
       -dot (cameraForward o s) (t + cameraOffset o s), 1⟩ := by
  have hfwd : normalize o (t - (t + cameraOffset o s)) = cameraForward o s := by
    unfold cameraForward
    rw [Vec3.sub_add_self t (cameraOffset o s),
      Vec3.sub_add_self s.target (cameraOffset o s)]
  show
    (let forward := normalize o (t - (t + cameraOffset o s))
     let right := normalize o (cross ⟨0, 1, 0⟩ forward)
     let camUp := cross forward right
     let cameraPos := t + cameraOffset o s
     (⟨right.x, camUp.x, forward.x, 0,
       right.y, camUp.y, forward.y, 0,
       right.z, camUp.z, forward.z, 0,
       -dot right cameraPos, -dot camUp cameraPos, -dot forward cameraPos,
       1⟩ : Float4x4)) = _
  dsimp only
  rw [hfwd]
  rfl

instance : Inhabited InstanceData := ⟨⟨Float4x4.identity, 0⟩⟩

/-! ### Claim theorems -/

/-- C1: for every grid size in [1, 32], a rendered frame issues exactly one
indexed-instanced draw call, whose instance count equals gridSize cubed and
whose index count equals 36. -/
theorem claim_C1_single_draw (o : MathOracle) (a : ℚ) (c : FrameConstants)
    (g : ℤ) (hg1 : 1 ≤ g) (hg2 : g ≤ 32) :
    (Render o a g c).2.filter GpuCmd.isDrawCall =
      [GpuCmd.drawIndexed 36 (g ^ 3)] := by
  have h : (Render o a g c).2.filter GpuCmd.isDrawCall =
      [GpuCmd.drawIndexed 36 (g * g * g)] := rfl
  rw [h]
  norm_num [pow_succ]

/-- Witness for C1 at grid size 2. -/
theorem claim_C1_single_draw_witness :
    (Render trivOracle 0 2 ⟨Float4x4.identity, Float4x4.identity⟩).2.filter
        GpuCmd.isDrawCall = [GpuCmd.drawIndexed 36 (2 ^ 3)] :=
  claim_C1_single_draw trivOracle 0 ⟨Float4x4.identity, Float4x4.identity⟩ 2
    (by decide) (by decide)

/-- C2 counterexample: a single update in which the Up preset button fires
ends with pitch equal to PI_F/2, which exceeds the claimed bound
0.99·(π/2); the preset handlers run after the pitch clamp inside the same
update, so the bound is violated at the end of that update. -/
theorem claim_C2_counterexample :
    ¬ ((runUpdates trivOracle Float4x4.identity projStub initCamera
          [presetInput Preset.up]).pitch ≤ 0.99 * (PI_F / 2)) := by
  have h : (runUpdates trivOracle Float4x4.identity projStub initCamera
      [presetInput Preset.up]).pitch = PI_F / 2 := rfl
  rw [h]
  norm_num [PI_F]

/-- C2 (amended): after any sequence of camera updates from the initial
state, at the end of each update the pitch lies in [-PI_F/2, +PI_F/2] and
the distance lies in [1, 100].  The claimed tighter pitch bound
0.99·(π/2) holds right after the clamp step, but the Up/Down preset
buttons — which run after the clamp within the same update — set the pitch
to exactly ±PI_F/2. -/
theorem claim_C2_camera_invariant (o : MathOracle) (srf : Float4x4)
    (getProj : ℚ → ℚ → ℚ → Float4x4) (inputs : List FrameInput) :
    (-(PI_F / 2) ≤ (runUpdates o srf getProj initCamera inputs).pitch ∧
       (runUpdates o srf getProj initCamera inputs).pitch ≤ PI_F / 2) ∧
    1 ≤ (runUpdates o srf getProj initCamera inputs).distance ∧
    (runUpdates o srf getProj initCamera inputs).distance ≤ 100 :=
  runUpdates_bounds o srf getProj inputs initCamera
    (by norm_num [initCamera]) (by norm_num [initCamera])
    (by norm_num [initCamera, PI_F]) (by norm_num [initCamera, PI_F])

/-- C4: each `PopulateInstanceBuffer` call advances the shared angle by
exactly 0.003, so k calls advance it by 0.003·k; the 22 texture-layer
indices are the same at every angle, and every record's matrix is
Scale·Translation·RotationY(angle) with the per-record scale and
translation factors drawn from the fixed layout table — only the rotation
factor varies between calls. -/
theorem claim_C4_angle_and_layout (o : MathOracle) (a b : ℚ) (k : ℕ) :
    (PopulateInstanceBuffer o a).1 = a + 0.003 ∧
    (fun x => (PopulateInstanceBuffer o x).1)^[k] a = a + 0.003 * k ∧
    (PopulateInstanceBuffer o a).2.1.map InstanceData.TextureInd =
      (PopulateInstanceBuffer o b).2.1.map InstanceData.TextureInd ∧
    (PopulateInstanceBuffer o a).2.1 =
      instanceLayoutTable.map (fun e =>
        ⟨Float4x4.Scale e.1.x e.1.y e.1.z *
           Float4x4.Translation e.2.1.x e.2.1.y e.2.1.z *
           Float4x4.RotationY o (a + 0.003), e.2.2⟩) := by
  refine ⟨rfl, ?_, rfl, rfl⟩
  induction k with
  | zero => simp
  | succ n ih =>
    rw [Function.iterate_succ_apply', ih]
    show a + 0.003 * n + 0.003 = a + 0.003 * ((n + 1 : ℕ) : ℚ)
    push_cast
    ring

/-- C6: a scroll event with nonzero wheel delta w updates the distance to
distance − w·2 and clamps the result into [1, 100]; in particular a scroll
delta of +5 at distance 20 yields distance 10. -/
theorem claim_C6_scroll_distance :
    (∀ (o : MathOracle) (srf : Float4x4) (getProj : ℚ → ℚ → ℚ → Float4x4)
        (s : CameraState) (inp : FrameInput), 0 < |inp.wheel| →
        (Update o srf getProj s inp).1.distance =
          min 100 (max 1 (s.distance - inp.wheel * 2))) ∧
    (Update trivOracle Float4x4.identity projStub initCamera
        (scrollInput 5)).1.distance = 10 := by
  constructor
  · intro o srf getProj s inp hw
    rw [Update_fst_distance, prePresetCamera_distance,
      applyScroll_distance_eq _ _ hw, clampPitchStep_distance,
      applyDrag_distance]
  · have h5 : (0 : ℚ) < |(scrollInput 5).wheel| := by
      norm_num [scrollInput, noInput]
    rw [Update_fst_distance, prePresetCamera_distance,
      applyScroll_distance_eq _ _ h5, clampPitchStep_distance,
      applyDrag_distance]
    have hv : initCamera.distance - (scrollInput 5).wheel * 2 = 10 := by
      norm_num [initCamera, scrollInput, noInput]
    rw [hv]
    norm_num

/-- Witness for C6: a scroll delta of +3 from the initial camera. -/
theorem claim_C6_scroll_distance_witness :
    (Update trivOracle Float4x4.identity projStub initCamera
        (scrollInput 3)).1.distance =
      min 100 (max 1 (initCamera.distance - (scrollInput 3).wheel * 2)) :=
  claim_C6_scroll_distance.1 trivOracle Float4x4.identity projStub initCamera
    (scrollInput 3) (by norm_num [scrollInput, noInput])

/-- C7: while the button is held, a drag with delta (dx, dy) adds dx·0.005
to the yaw; the drag step never modifies pitch, and leaves distance and
target untouched whether or not the button is held. -/
theorem claim_C7_drag_yaw_only (s : CameraState) (dx dy : ℚ) (b : Bool) :
    (applyDrag true dx dy s).yaw = s.yaw + dx * 0.005 ∧
    (applyDrag b dx dy s).pitch = s.pitch ∧
    (applyDrag b dx dy s).distance = s.distance ∧
    (applyDrag b dx dy s).target = s.target := by
  refine ⟨rfl, applyDrag_pitch b dx dy s, applyDrag_distance b dx dy s, ?_⟩
  unfold applyDrag
  split <;> rfl

/-- C8: the instance-population function always produces exactly 22
records, every texture-layer index is one of 0, 1, 2, 3, the record size is
68 bytes, and the GPU instance buffer is overwritten from offset 0 with
exactly 22·68 bytes — and `Render` issues that overwrite first on every
frame. -/
theorem claim_C8_instance_buffer (o : MathOracle) (a : ℚ) (g : ℤ)
    (c : FrameConstants) :
    (PopulateInstanceBuffer o a).2.1.length = 22 ∧
    (∀ r ∈ (PopulateInstanceBuffer o a).2.1,
        r.TextureInd = 0 ∨ r.TextureInd = 1 ∨ r.TextureInd = 2 ∨
          r.TextureInd = 3) ∧
    instanceDataSize = 68 ∧
    (PopulateInstanceBuffer o a).2.2 = GpuCmd.updateBuffer 0 (22 * 68) ∧
    (Render o a g c).2.head? = some (GpuCmd.updateBuffer 0 (22 * 68)) := by
  refine ⟨rfl, ?_, rfl, rfl, rfl⟩
  intro r hr
  have hmap : r.TextureInd ∈
      (PopulateInstanceBuffer o a).2.1.map InstanceData.TextureInd :=
    List.mem_map_of_mem _ hr
  have hlist : (PopulateInstanceBuffer o a).2.1.map InstanceData.TextureInd =
      [3, 3, 3, 3, 3, 3, 3, 0, 2, 1, 0, 3, 3, 3, 3, 3, 3, 3, 1, 0, 2, 1] := rfl
  rw [hlist] at hmap
  simp only [List.mem_cons, List.not_mem_nil, or_false] at hmap
  rcases hmap with h | h | h | h | h | h | h | h | h | h | h | h | h | h |
    h | h | h | h | h | h | h | h <;> rw [h] <;> norm_num

/-- Witness for C8: the first produced record has an index in {0,1,2,3}. -/
theorem claim_C8_instance_buffer_witness :
    ((PopulateInstanceBuffer trivOracle 0).2.1.headI).TextureInd = 0 ∨
    ((PopulateInstanceBuffer trivOracle 0).2.1.headI).TextureInd = 1 ∨
    ((PopulateInstanceBuffer trivOracle 0).2.1.headI).TextureInd = 2 ∨
    ((PopulateInstanceBuffer trivOracle 0).2.1.headI).TextureInd = 3 :=
  (claim_C8_instance_buffer trivOracle 0 1
      ⟨Float4x4.identity, Float4x4.identity⟩).2.1 _
    (by simp [PopulateInstanceBuffer, instanceRecords])

/-- C9: the second matrix written into the per-frame uniform constants is
the identity on every frame: `Update` always stores the identity into
`m_RotationMatrix`, and the mapped-buffer write of `Render` uploads exactly
[viewProj, rotation], so its second entry is the identity. -/
theorem claim_C9_rotation_identity (o : MathOracle) (srf : Float4x4)
    (getProj : ℚ → ℚ → ℚ → Float4x4) (s : CameraState) (inp : FrameInput)
    (a : ℚ) (g : ℤ) :
    (Update o srf getProj s inp).2.rotationMatrix = Float4x4.identity ∧
    GpuCmd.writeConstants
        [(Update o srf getProj s inp).2.viewProjMatrix, Float4x4.identity] ∈
      (Render o a g (Update o srf getProj s inp).2).2 := by
  refine ⟨rfl, ?_⟩
  have h : (Update o srf getProj s inp).2.rotationMatrix =
      Float4x4.identity := rfl
  rw [← h]
  simp [Render]

/-- C3: for N source images with identical descriptors, the built texture
array has arraySize = N, the initialization data has N·mipCount entries,
and the subresource data of source image `slice` at mip level `mip` is
placed at destination index `slice * mipCount + mip`. -/
theorem claim_C3_texture_array {σ : Type} (loaders : List (TexLoader σ))
    (out : TextureArrayData σ) (hbuild : LoadTextures loaders = some out)
    (slice mip : ℕ) (hs : slice < loaders.length)
    (hm : mip < out.desc.mipLevels) :
    out.desc.arraySize = loaders.length ∧
    out.subres.length = loaders.length * out.desc.mipLevels ∧
    out.subres[slice * out.desc.mipLevels + mip]? =
      some ((loaders.get ⟨slice, hs⟩).GetSubresourceData mip 0) := by
  cases loaders with
  | nil => simp at hs
  | cons l0 tl =>
    unfold LoadTextures at hbuild
    simp only [List.head?] at hbuild
    split_ifs at hbuild with hdesc
    · rw [Option.some.injEq] at hbuild
      subst hbuild
      have hm2 : mip < l0.desc.mipLevels := hm
      dsimp only
      refine ⟨rfl, ?_, ?_⟩
      · exact flatMap_uniform_length _ l0.desc.mipLevels (fun x => by simp)
          (l0 :: tl)
      · rw [flatMap_uniform_getElem _ l0.desc.mipLevels (fun x => by simp)
          (l0 :: tl) slice mip hs hm2]
        simp [List.getElem?_map, List.getElem?_range, hm2]

/-- A concrete two-image batch used to witness C3 (subresource data modelled
as natural-number tags). -/
def texLoaderA : TexLoader ℕ :=
  ⟨⟨16, 16, 2, 1, 7⟩, fun mip slice => 100 + 10 * mip + slice⟩

/-- Second concrete loader of the C3 witness batch. -/
def texLoaderB : TexLoader ℕ :=
  ⟨⟨16, 16, 2, 1, 7⟩, fun mip slice => 200 + 10 * mip + slice⟩

/-- The texture array produced from the two concrete loaders. -/
def texArrayAB : TextureArrayData ℕ :=
  ⟨⟨16, 16, 2, 2, 7⟩, [100, 110, 200, 210], 4⟩

/-- Witness for C3: building from the two concrete loaders places slice 1,
mip 0 at destination index `1 * 2 + 0`. -/
theorem claim_C3_texture_array_witness :
    texArrayAB.desc.arraySize = [texLoaderA, texLoaderB].length ∧
    texArrayAB.subres.length =
      [texLoaderA, texLoaderB].length * texArrayAB.desc.mipLevels ∧
    texArrayAB.subres[1 * texArrayAB.desc.mipLevels + 0]? =
      some (([texLoaderA, texLoaderB].get ⟨1, by norm_num⟩).GetSubresourceData
        0 0) :=
  claim_C3_texture_array [texLoaderA, texLoaderB] texArrayAB (by decide) 1 0
    (by norm_num) (by norm_num [texArrayAB])

/-- C5: each frame the uploaded matrix is the spec look-at matrix of the
camera state at derivation time (after drag, clamp, scroll and pan, before
the preset buttons), composed as View · SurfacePretransform · Projection
with the projection requested at (PI_F/4, 0.1, 100); on preset-free frames
that camera state is exactly the end-of-update camera state. -/
theorem claim_C5_view_matrix (o : MathOracle) (srf : Float4x4)
    (getProj : ℚ → ℚ → ℚ → Float4x4) (s : CameraState) (inp : FrameInput) :
    (Update o srf getProj s inp).2.viewProjMatrix =
      specViewMatrix o (prePresetCamera o inp s) * srf *
        getProj (PI_F / 4) 0.1 100 ∧
    (inp.preset = none →
      (Update o srf getProj s inp).2.viewProjMatrix =
        specViewMatrix o (Update o srf getProj s inp).1 * srf *
          getProj (PI_F / 4) 0.1 100) := by
  have hc1 : (Update o srf getProj s inp).2.viewProjMatrix =
      specViewMatrix o (prePresetCamera o inp s) * srf *
        getProj (PI_F / 4) 0.1 100 := by
    show (Update o srf getProj s inp).2.viewProjMatrix =
      specViewMatrix o
          { applyScroll inp.wheel
              (clampPitchStep (applyDrag inp.dragging inp.dragDX inp.dragDY s)) with
            target := panTarget o inp
              (applyScroll inp.wheel
                (clampPitchStep (applyDrag inp.dragging inp.dragDX inp.dragDY s))) } *
        srf * getProj (PI_F / 4) 0.1 100
    rw [specView_target_shift]
    rfl
  refine ⟨hc1, fun hp => ?_⟩
  have hfin : (Update o srf getProj s inp).1 = prePresetCamera o inp s := by
    rw [Update_fst, hp]
  rw [hfin]
  exact hc1

/-- Witness for C5 on a preset-free frame. -/
theorem claim_C5_view_matrix_witness :
    (Update trivOracle Float4x4.identity projStub initCamera
        noInput).2.viewProjMatrix =
      specViewMatrix trivOracle
          (Update trivOracle Float4x4.identity projStub initCamera noInput).1 *
        Float4x4.identity * projStub (PI_F / 4) 0.1 100 :=
  (claim_C5_view_matrix trivOracle Float4x4.identity projStub initCamera
    noInput).2 rfl

/-- C10: at process start, before any input, the camera statics are yaw 0,
pitch 0, distance 20, target (0, -4, 0), and the shared rotation angle
starts at PI_F (the float π) radians. -/
theorem claim_C10_initial_state :
    initCamera.yaw = 0 ∧ initCamera.pitch = 0 ∧ initCamera.distance = 20 ∧
    initCamera.target = ⟨0, -4, 0⟩ ∧ angleInitial = PI_F := by
  refine ⟨rfl, rfl, rfl, rfl, ?_⟩
  norm_num [angleInitial]

end Tutorial05
